import Mathlib

/-!
Shallow embedding of `scripts/tile_city_mesh.py`: a Blender batch script that
cuts a city mesh into printable tiles with quantized undersides and corner
magnet sockets.  Coordinates are modelled as exact rationals; the Blender
scene-graph operations are modelled as pure functions over explicit geometry
values, and the modifier stack as an explicit list of subtraction steps.
-/

namespace TileCityMesh

/-- The configuration block at the top of `tile_city_mesh.py` (lines 13-37),
turned into an explicit record so theorems can quantify over configurations.
`MAGNET_PERIM_OFFSET_MM` is in millimetres, exactly as in the source. -/
structure Config where
  TILE_SIZE : ℚ
  TILES_X : ℕ
  TILES_Y : ℕ
  MIN_MODEL_BASE_DEPTH : ℚ
  FILL_LAYER_THICKNESS : ℚ
  QUANTIZE_FILL : Bool
  QUANTIZE_ANCHOR_Z : ℚ
  EPS : ℚ
  MAGNET_RADIUS : ℚ
  MAGNET_HEIGHT : ℚ
  MAGNET_PERIM_OFFSET_MM : ℚ
  MAGNET_SAFETY : ℚ
  COUNTERSINK_SHOULDER : ℚ
  SINGLE_TILE_MODE : Bool
  SINGLE_TILE_ROW : ℤ
  SINGLE_TILE_COL : ℤ
deriving DecidableEq

/-- The literal constants of the source file (meters; 0.20 = 1/5 etc.). -/
def defaultConfig : Config where
  TILE_SIZE := 1/5
  TILES_X := 3
  TILES_Y := 5
  MIN_MODEL_BASE_DEPTH := 1/200
  FILL_LAYER_THICKNESS := 1/50
  QUANTIZE_FILL := true
  QUANTIZE_ANCHOR_Z := 0
  EPS := 1/1000000
  MAGNET_RADIUS := 1/200
  MAGNET_HEIGHT := 1/500
  MAGNET_PERIM_OFFSET_MM := 4
  MAGNET_SAFETY := 1/1000
  COUNTERSINK_SHOULDER := 1/1000
  SINGLE_TILE_MODE := true
  SINGLE_TILE_ROW := 1
  SINGLE_TILE_COL := 2

/-- A mesh vertex in world coordinates (the script maps every vertex through
`matrix_world` before testing it; we take the world-space result as input). -/
structure Vert where
  x : ℚ
  y : ℚ
  z : ℚ
deriving DecidableEq

/-- `tile_aabb(row, col)` (source lines 75-81): the tile footprint
`(min_x, max_x, min_y, max_y)` in local coordinates. -/
def tile_aabb (cfg : Config) (row col : ℤ) : ℚ × ℚ × ℚ × ℚ :=
  (col * cfg.TILE_SIZE, (col + 1) * cfg.TILE_SIZE,
   row * cfg.TILE_SIZE, (row + 1) * cfg.TILE_SIZE)

/-- The vertex-inclusion test of `min_z_in_tile` (line 87):
`min_x <= v.x <= max_x and min_y <= v.y <= max_y`, inclusive on all bounds. -/
def in_tile_bounds (cfg : Config) (row col : ℤ) (v : Vert) : Prop :=
  (tile_aabb cfg row col).1 ≤ v.x ∧ v.x ≤ (tile_aabb cfg row col).2.1 ∧
  (tile_aabb cfg row col).2.2.1 ≤ v.y ∧ v.y ≤ (tile_aabb cfg row col).2.2.2

instance (cfg : Config) (row col : ℤ) (v : Vert) :
    Decidable (in_tile_bounds cfg row col v) := by
  unfold in_tile_bounds
  infer_instance

/-- `min_z_in_tile` (source lines 83-88): lowest Z among vertices inside the
tile XY bounds, `none` when the set is empty (Python returns `None`). -/
def min_z_in_tile (cfg : Config) (verts : List Vert) (row col : ℤ) : Option ℚ :=
  ((verts.filter (fun v => decide (in_tile_bounds cfg row col v))).map Vert.z).min?

/-- `quantized_bottom(min_z)` (source lines 90-97). -/
def quantized_bottom (cfg : Config) (min_z : ℚ) : ℚ :=
  if !cfg.QUANTIZE_FILL then
    min_z - cfg.MIN_MODEL_BASE_DEPTH - cfg.FILL_LAYER_THICKNESS
  else
    let step := cfg.FILL_LAYER_THICKNESS
    let pre_base := min_z - cfg.MIN_MODEL_BASE_DEPTH
    let snapped := cfg.QUANTIZE_ANCHOR_Z + ⌊(pre_base - cfg.QUANTIZE_ANCHOR_Z) / step⌋ * step
    snapped - cfg.EPS

/-- A bore cylinder produced by `primitive_cylinder_add` (line 126):
axis-aligned, centered at `(cx, cy, cz)`, with its flat faces at
`cz ± depth / 2`. -/
structure Cylinder where
  cx : ℚ
  cy : ℚ
  cz : ℚ
  radius : ℚ
  depth : ℚ
deriving DecidableEq

/-- A countersink cone produced by `primitive_cone_add` (lines 137-143):
base radius `radius1`, tip radius 0, height `depth`, centered at
`(cx, cy, cz)`. -/
structure Cone where
  cx : ℚ
  cy : ℚ
  cz : ℚ
  radius1 : ℚ
  depth : ℚ
deriving DecidableEq

/-- The effective corner offset of `add_corner_magnets` (line 110):
`offset_m = max(MAGNET_PERIM_OFFSET_MM / 1000.0, MAGNET_RADIUS + MAGNET_SAFETY)`. -/
def effective_offset (cfg : Config) : ℚ :=
  max (cfg.MAGNET_PERIM_OFFSET_MM / 1000) (cfg.MAGNET_RADIUS + cfg.MAGNET_SAFETY)

/-- `add_corner_magnets` (source lines 108-146) as pure geometry: the four
(bore, countersink) pairs for a tile centered at `(x, y, z)` with height
`cube_height`.  `extra = 0.01` and the cone floor radius `0.0005` and overlap
`0.0005` are the source's literals. -/
def add_corner_magnets (cfg : Config) (x y z cube_height : ℚ) :
    List (Cylinder × Cone) :=
  let offset_m := effective_offset cfg
  let extra : ℚ := 1/100
  let depth := cfg.MAGNET_HEIGHT + extra
  let tile_bottom_z := z - cube_height / 2
  let magnet_center_z := tile_bottom_z + cfg.MAGNET_HEIGHT / 2 - extra / 2
  let half := cfg.TILE_SIZE / 2
  let dx := half - offset_m
  let dy := half - offset_m
  let corners := [(x - dx, y - dy), (x + dx, y - dy), (x - dx, y + dy), (x + dx, y + dy)]
  corners.map fun c =>
    let cone_base_radius := max (cfg.MAGNET_RADIUS - cfg.COUNTERSINK_SHOULDER) (1/2000)
    let cone_h := cone_base_radius
    let cone_base_z := tile_bottom_z + cfg.MAGNET_HEIGHT - 1/2000
    let cone_center_z := cone_base_z + cone_h / 2
    (⟨c.1, c.2, magnet_center_z, cfg.MAGNET_RADIUS, depth⟩,
     ⟨c.1, c.2, cone_center_z, cone_base_radius, cone_h⟩)

/-- The data `process_tile` (source lines 171-197) computes for a populated
tile before handing it to the modifier-application loop: cube placement,
Z scale, and the four magnet cutter pairs. -/
structure Tile where
  x : ℚ
  y : ℚ
  z : ℚ
  cube_bottom : ℚ
  cube_top : ℚ
  cube_height : ℚ
  scale_z : ℚ
  magnets : List (Cylinder × Cone)
deriving DecidableEq

/-- `process_tile` (source lines 171-197): computes `min_z` for the tile,
returns nothing when the footprint holds no vertex, and otherwise builds the
cube and its magnet cutters.  The source performs no validation of
`cube_bottom` against `cube_top`; neither does this embedding. -/
def process_tile (cfg : Config) (verts : List Vert) (row col : ℤ) : Option Tile :=
  match min_z_in_tile cfg verts row col with
  | none => none
  | some min_z =>
    let x := col * cfg.TILE_SIZE + cfg.TILE_SIZE / 2
    let y := row * cfg.TILE_SIZE + cfg.TILE_SIZE / 2
    let cube_bottom := quantized_bottom cfg min_z
    let cube_top := min_z + cfg.TILE_SIZE / 2
    let cube_height := cube_top - cube_bottom
    let z := cube_bottom + cube_height / 2
    some { x := x, y := y, z := z,
           cube_bottom := cube_bottom, cube_top := cube_top,
           cube_height := cube_height,
           scale_z := cube_height / cfg.TILE_SIZE,
           magnets := add_corner_magnets cfg x y z cube_height }

/-- One boolean-subtraction step of the per-tile CSG pipeline: the city-mesh
difference modifier (line 192) or a magnet bore / countersink modifier for
corner `i` (lines 129 and 146). -/
inductive Step where
  | subtractCity : Step
  | subtractBore : ℕ → Step
  | subtractCone : ℕ → Step
deriving DecidableEq, BEq

/-- The modifier name the source assigns to each step ("Difference",
"MagnetHole_i", "MagnetCountersink_i"). -/
def modName : Step → String
  | Step.subtractCity => "Difference"
  | Step.subtractBore i => "MagnetHole_" ++ toString i
  | Step.subtractCone i => "MagnetCountersink_" ++ toString i

/-- The name of the city-difference modifier (line 192). -/
def differenceName : String := "Difference"

/-- First element of the startswith tuple on line 226. -/
def magnetHoleName : String := "MagnetHole"

/-- Second element of the startswith tuple on line 226. -/
def magnetConeName : String := "MagnetCountersink"

/-- The modifier stack a tile carries after `process_tile`: the city
difference is added first (line 192), then `add_corner_magnets` loops over
the corners adding, for each corner `i`, the bore and then the countersink
(lines 124-146). -/
def tile_modifier_stack : List Step :=
  [Step.subtractCity] ++
    (List.range 4).flatMap (fun i => [Step.subtractBore i, Step.subtractCone i])

/-- Python's `str.startswith`: does `s` start with `p`?  (Stated over the
character lists so it evaluates inside the kernel.) -/
def starts_with (s p : String) : Bool :=
  List.isPrefixOf p.data s.data

/-- The filter of line 226:
`m.name.startswith(("MagnetHole", "MagnetCountersink"))`. -/
def is_magnet_mod (s : Step) : Bool :=
  starts_with (modName s) magnetHoleName || starts_with (modName s) magnetConeName

/-- The order in which `main` applies the subtractions to one tile
(lines 221-227): first the modifier named "Difference", then every
magnet modifier in modifier-stack order. -/
def apply_sequence : List Step :=
  tile_modifier_stack.filter (fun s => modName s == differenceName) ++
    tile_modifier_stack.filter (fun s => is_magnet_mod s)

/-- `apply_modifiers` (source lines 148-158) over abstract geometry `G`:
`res s g` is the outcome of applying one boolean modifier (`none` models the
`RuntimeError` of a failed boolean).  The source wraps each application in
`try/except RuntimeError: pass`, so a failed step leaves the geometry
unchanged, emits no output, and the loop continues; the returned list
collects everything the function logs (the source logs nothing). -/
def apply_modifiers {G : Type} (res : Step → G → Option G) :
    List Step → G → G × List String
  | [], g => (g, [])
  | s :: rest, g =>
    match res s g with
    | some g2 => apply_modifiers res rest g2
    | none => apply_modifiers res rest g

/-- The grid iteration of `main` (lines 212-214): row-major over
`range(TILES_Y) × range(TILES_X)`. -/
def grid_indices (cfg : Config) : List (ℤ × ℤ) :=
  (List.range cfg.TILES_Y).flatMap
    (fun r => (List.range cfg.TILES_X).map (fun c => ((r : ℤ), (c : ℤ))))

/-- The tile-collection logic of `main` (lines 207-214): in single-tile mode
exactly `(SINGLE_TILE_ROW, SINGLE_TILE_COL)` is processed, with no check
against the grid bounds; otherwise the full grid is swept, unpopulated tiles
contributing nothing. -/
def run_tiles (cfg : Config) (verts : List Vert) : List Tile :=
  if cfg.SINGLE_TILE_MODE then
    match process_tile cfg verts cfg.SINGLE_TILE_ROW cfg.SINGLE_TILE_COL with
    | some t => [t]
    | none => []
  else
    (grid_indices cfg).filterMap (fun rc => process_tile cfg verts rc.1 rc.2)

end TileCityMesh

namespace TileCityMesh

/-- C1: the Base Quantizer formula, both modes, and Scenario A. -/
theorem quantized_bottom_spec (cfg : Config) (min_z : ℚ) :
    (cfg.QUANTIZE_FILL = true →
      quantized_bottom cfg min_z =
        cfg.QUANTIZE_ANCHOR_Z +
          ⌊(min_z - cfg.MIN_MODEL_BASE_DEPTH - cfg.QUANTIZE_ANCHOR_Z) /
              cfg.FILL_LAYER_THICKNESS⌋ * cfg.FILL_LAYER_THICKNESS - cfg.EPS) ∧
    (cfg.QUANTIZE_FILL = false →
      quantized_bottom cfg min_z =
        min_z - cfg.MIN_MODEL_BASE_DEPTH - cfg.FILL_LAYER_THICKNESS) ∧
    quantized_bottom defaultConfig (137/1000) = 3/25 - defaultConfig.EPS := by
  refine ⟨fun h => ?_, fun h => ?_, ?_⟩
  · simp [quantized_bottom, h]
  · simp [quantized_bottom, h]
  · norm_num [quantized_bottom, defaultConfig]

/-- Witness for C1: the quantized branch is taken by the source configuration,
and Scenario A's input evaluates to the claimed formula. -/
theorem quantized_bottom_spec_wit :
    defaultConfig.QUANTIZE_FILL = true ∧
    quantized_bottom defaultConfig (137/1000) =
      defaultConfig.QUANTIZE_ANCHOR_Z +
        ⌊(137/1000 - defaultConfig.MIN_MODEL_BASE_DEPTH - defaultConfig.QUANTIZE_ANCHOR_Z) /
            defaultConfig.FILL_LAYER_THICKNESS⌋ * defaultConfig.FILL_LAYER_THICKNESS -
        defaultConfig.EPS :=
  ⟨rfl, (quantized_bottom_spec defaultConfig (137/1000)).1 rfl⟩

/-- C3: the Fixture Placer's effective corner offset is
`max(MAGNET_PERIM_OFFSET, MAGNET_RADIUS + MAGNET_SAFETY)` (with the perimeter
offset converted from millimetres), hence always at least
`MAGNET_RADIUS + MAGNET_SAFETY`; the bore centers are placed at
`TILE_SIZE / 2 - offset` from the tile center; and with radius 5 mm, safety
1 mm and a configured perimeter offset of 1 mm the effective offset is
6 mm (3/500 m), not 1 mm. -/
theorem effective_offset_clamp :
    (∀ cfg : Config,
      effective_offset cfg =
        max (cfg.MAGNET_PERIM_OFFSET_MM / 1000) (cfg.MAGNET_RADIUS + cfg.MAGNET_SAFETY) ∧
      cfg.MAGNET_RADIUS + cfg.MAGNET_SAFETY ≤ effective_offset cfg) ∧
    (∀ (cfg : Config) (x y z h : ℚ),
      (add_corner_magnets cfg x y z h).map (fun p => (p.1.cx, p.1.cy)) =
        [(x - (cfg.TILE_SIZE / 2 - effective_offset cfg),
          y - (cfg.TILE_SIZE / 2 - effective_offset cfg)),
         (x + (cfg.TILE_SIZE / 2 - effective_offset cfg),
          y - (cfg.TILE_SIZE / 2 - effective_offset cfg)),
         (x - (cfg.TILE_SIZE / 2 - effective_offset cfg),
          y + (cfg.TILE_SIZE / 2 - effective_offset cfg)),
         (x + (cfg.TILE_SIZE / 2 - effective_offset cfg),
          y + (cfg.TILE_SIZE / 2 - effective_offset cfg))]) ∧
    effective_offset { defaultConfig with MAGNET_PERIM_OFFSET_MM := 1 } = 3/500 ∧
    (3/500 : ℚ) ≠ 1/1000 := by
  refine ⟨fun cfg => ⟨rfl, le_max_right _ _⟩, fun cfg x y z h => ?_, ?_, by norm_num⟩
  · simp [add_corner_magnets]
  · norm_num [effective_offset, defaultConfig]

/-- Witness for C3 at the source's own configuration. -/
theorem effective_offset_clamp_wit :
    defaultConfig.MAGNET_RADIUS + defaultConfig.MAGNET_SAFETY ≤
      effective_offset defaultConfig :=
  (effective_offset_clamp.1 defaultConfig).2

/-- C4: in both modes the computed bottom never rises above
`min_z - MIN_MODEL_BASE_DEPTH` (it never cuts into the minimum base depth),
provided the fill layer thickness is positive and the epsilon nonnegative. -/
theorem quantized_bottom_le_pre_base (cfg : Config) (min_z : ℚ)
    (hs : 0 < cfg.FILL_LAYER_THICKNESS) (he : 0 ≤ cfg.EPS) :
    quantized_bottom cfg min_z ≤ min_z - cfg.MIN_MODEL_BASE_DEPTH := by
  unfold quantized_bottom
  cases hq : cfg.QUANTIZE_FILL with
  | false =>
    simp only [hq, Bool.not_false, if_pos]
    linarith
  | true =>
    simp only [hq, Bool.not_true, if_neg, Bool.false_eq_true, not_false_iff]
    set pre := min_z - cfg.MIN_MODEL_BASE_DEPTH with hpre
    have h1 : (⌊(pre - cfg.QUANTIZE_ANCHOR_Z) / cfg.FILL_LAYER_THICKNESS⌋ : ℚ) ≤
        (pre - cfg.QUANTIZE_ANCHOR_Z) / cfg.FILL_LAYER_THICKNESS := Int.floor_le _
    have h2 : (⌊(pre - cfg.QUANTIZE_ANCHOR_Z) / cfg.FILL_LAYER_THICKNESS⌋ : ℚ) *
        cfg.FILL_LAYER_THICKNESS ≤
        (pre - cfg.QUANTIZE_ANCHOR_Z) / cfg.FILL_LAYER_THICKNESS * cfg.FILL_LAYER_THICKNESS :=
      mul_le_mul_of_nonneg_right h1 (le_of_lt hs)
    have h3 : (pre - cfg.QUANTIZE_ANCHOR_Z) / cfg.FILL_LAYER_THICKNESS *
        cfg.FILL_LAYER_THICKNESS = pre - cfg.QUANTIZE_ANCHOR_Z :=
      div_mul_cancel₀ _ (ne_of_gt hs)
    linarith

/-- Witness for C4 at the source's own configuration and Scenario A's input. -/
theorem quantized_bottom_le_pre_base_wit :
    0 < defaultConfig.FILL_LAYER_THICKNESS ∧ 0 ≤ defaultConfig.EPS ∧
    quantized_bottom defaultConfig (137/1000) ≤ 137/1000 - defaultConfig.MIN_MODEL_BASE_DEPTH :=
  ⟨by norm_num [defaultConfig], by norm_num [defaultConfig],
    quantized_bottom_le_pre_base defaultConfig (137/1000)
      (by norm_num [defaultConfig]) (by norm_num [defaultConfig])⟩

/-- C9: in quantized mode the bottom never sinks more than one full fill layer
(plus EPS) below `min_z - MIN_MODEL_BASE_DEPTH`. -/
theorem quantized_bottom_lower_bound (cfg : Config) (min_z : ℚ)
    (hq : cfg.QUANTIZE_FILL = true) (hs : 0 < cfg.FILL_LAYER_THICKNESS) :
    min_z - cfg.MIN_MODEL_BASE_DEPTH - cfg.FILL_LAYER_THICKNESS - cfg.EPS <
      quantized_bottom cfg min_z := by
  unfold quantized_bottom
  simp only [hq, Bool.not_true, if_neg, Bool.false_eq_true, not_false_iff]
  set pre := min_z - cfg.MIN_MODEL_BASE_DEPTH with hpre
  have h1 : (pre - cfg.QUANTIZE_ANCHOR_Z) / cfg.FILL_LAYER_THICKNESS - 1 <
      (⌊(pre - cfg.QUANTIZE_ANCHOR_Z) / cfg.FILL_LAYER_THICKNESS⌋ : ℚ) :=
    Int.sub_one_lt_floor _
  have h2 : ((pre - cfg.QUANTIZE_ANCHOR_Z) / cfg.FILL_LAYER_THICKNESS - 1) *
      cfg.FILL_LAYER_THICKNESS <
      (⌊(pre - cfg.QUANTIZE_ANCHOR_Z) / cfg.FILL_LAYER_THICKNESS⌋ : ℚ) *
        cfg.FILL_LAYER_THICKNESS :=
    mul_lt_mul_of_pos_right h1 hs
  have h3 : (pre - cfg.QUANTIZE_ANCHOR_Z) / cfg.FILL_LAYER_THICKNESS *
      cfg.FILL_LAYER_THICKNESS = pre - cfg.QUANTIZE_ANCHOR_Z :=
    div_mul_cancel₀ _ (ne_of_gt hs)
  nlinarith [h2, h3]

/-- A misconfiguration under which the quantized bottom lands above the cube
top: a negative minimum base depth of one meter. -/
def cfgC2 : Config := { defaultConfig with MIN_MODEL_BASE_DEPTH := -1 }

/-- One vertex inside tile (0, 0), at elevation 0. -/
def vertsC2 : List Vert := [⟨1/10, 1/10, 0⟩]

/-- C2, counterexample: under `cfgC2` the tile (0, 0) is populated with
`min_z = 0` and `bottom_z = 999999/1000000 ≥ top_z = 1/10`, yet
`process_tile` returns a tile solid (of negative height `-899999/1000000`):
the source has no enclosure check and no error channel at all, so no
`InvalidEnclosureError` is ever reported. -/
theorem process_tile_degenerate_cex :
    min_z_in_tile cfgC2 vertsC2 0 0 = some 0 ∧
    quantized_bottom cfgC2 0 ≥ 0 + cfgC2.TILE_SIZE / 2 ∧
    (process_tile cfgC2 vertsC2 0 0).map Tile.cube_height = some (-899999/1000000) := by
  refine ⟨?_, ?_, ?_⟩
  · norm_num [min_z_in_tile, in_tile_bounds, tile_aabb, cfgC2, defaultConfig,
      List.filter, List.min?]
  · norm_num [quantized_bottom, cfgC2, defaultConfig]
  · norm_num [process_tile, min_z_in_tile, in_tile_bounds, tile_aabb,
      quantized_bottom, cfgC2, defaultConfig, List.filter, List.min?]

/-- C2, amended: `process_tile` performs no validation of the enclosure
height.  For every populated tile it returns a tile solid with
`cube_bottom = quantized_bottom min_z`, `cube_top = min_z + TILE_SIZE / 2`
and `cube_height = cube_top - cube_bottom`, whether or not that height is
positive: a configuration with `bottom_z ≥ top_z` silently yields a
degenerate solid instead of an `InvalidEnclosureError`. -/
theorem process_tile_no_enclosure_check (cfg : Config) (verts : List Vert)
    (row col : ℤ) (m : ℚ) (h : min_z_in_tile cfg verts row col = some m) :
    ∃ t : Tile, process_tile cfg verts row col = some t ∧
      t.cube_bottom = quantized_bottom cfg m ∧
      t.cube_top = m + cfg.TILE_SIZE / 2 ∧
      t.cube_height = t.cube_top - t.cube_bottom := by
  simp only [process_tile, h]
  exact ⟨_, rfl, rfl, rfl, rfl⟩

/-- Witness for C2's amended theorem, at the degenerate configuration. -/
theorem process_tile_no_enclosure_check_wit :
    min_z_in_tile cfgC2 vertsC2 0 0 = some 0 ∧
    ∃ t : Tile, process_tile cfgC2 vertsC2 0 0 = some t ∧
      t.cube_bottom = quantized_bottom cfgC2 0 ∧
      t.cube_top = 0 + cfgC2.TILE_SIZE / 2 ∧
      t.cube_height = t.cube_top - t.cube_bottom := by
  have h : min_z_in_tile cfgC2 vertsC2 0 0 = some 0 := by
    norm_num [min_z_in_tile, in_tile_bounds, tile_aabb, cfgC2, defaultConfig,
      List.filter, List.min?]
  exact ⟨h, process_tile_no_enclosure_check cfgC2 vertsC2 0 0 0 h⟩

/-- C5, counterexample: the countersink of corner 0 is applied before the
bore of corner 1, and the applied sequence is not "all bores, then all
countersinks". -/
theorem apply_sequence_interleaved_cex :
    apply_sequence.indexOf (Step.subtractCone 0) <
      apply_sequence.indexOf (Step.subtractBore 1) ∧
    apply_sequence ≠
      [Step.subtractCity] ++ (List.range 4).map Step.subtractBore ++
        (List.range 4).map Step.subtractCone := by
  exact ⟨by decide, by decide⟩

/-- C5, amended: the subtractions are applied in the order: global-mesh
difference first, then for each corner `i` (in order 0, 1, 2, 3) the bore of
corner `i` immediately followed by the countersink of corner `i`.  Every bore
precedes its own countersink, but bores and countersinks of different corners
interleave. -/
theorem apply_sequence_order :
    apply_sequence =
      [Step.subtractCity,
       Step.subtractBore 0, Step.subtractCone 0,
       Step.subtractBore 1, Step.subtractCone 1,
       Step.subtractBore 2, Step.subtractCone 2,
       Step.subtractBore 3, Step.subtractCone 3] := by
  rfl

/-- An outcome oracle under which the city-difference step fails with a
`RuntimeError` and every magnet step succeeds (incrementing a step counter). -/
def resC6 : Step → ℕ → Option ℕ
  | Step.subtractCity, _ => none
  | _, g => some (g + 1)

/-- C6, counterexample: when the first subtraction fails, the loop keeps the
pre-subtraction geometry and continues with the remaining steps, but emits
**no** log output whatsoever — the `except RuntimeError: pass` swallows the
failure silently, so no warning identifying the tile and step exists. -/
theorem apply_modifiers_silent_cex :
    apply_modifiers resC6 [Step.subtractCity, Step.subtractBore 0] 0 =
      (1, ([] : List String)) := by
  rfl

/-- C6, amended: on failure of one step `apply_modifiers` retains the
unmodified pre-subtraction geometry and continues with the remaining steps
(it never aborts), but it logs nothing at all: its log output is empty on
every run, so no warning identifying the tile and step is ever produced. -/
theorem apply_modifiers_failure_semantics {G : Type} (res : Step → G → Option G)
    (s : Step) (rest : List Step) (g : G) (h : res s g = none) :
    apply_modifiers res (s :: rest) g = apply_modifiers res rest g ∧
    ∀ (steps : List Step) (g0 : G), (apply_modifiers res steps g0).2 = [] := by
  constructor
  · simp [apply_modifiers, h]
  · intro steps
    induction steps with
    | nil => intro g0; rfl
    | cons a l ih =>
      intro g0
      unfold apply_modifiers
      cases res a g0 <;> simp [ih]

/-- Witness for C6's amended theorem, with a failing city-difference step. -/
theorem apply_modifiers_failure_semantics_wit :
    resC6 Step.subtractCity 0 = none ∧
    (apply_modifiers resC6 [Step.subtractCity, Step.subtractBore 0] 0 =
        apply_modifiers resC6 [Step.subtractBore 0] 0 ∧
      ∀ (steps : List Step) (g0 : ℕ), (apply_modifiers resC6 steps g0).2 = []) :=
  ⟨rfl, apply_modifiers_failure_semantics resC6 Step.subtractCity
    [Step.subtractBore 0] 0 rfl⟩

/-- C7, counterexample: for the source configuration and a tile whose
underside lies at `z = 0` (center `z = 1/20`, height `1/10`), every bore's
top face lies at `1/500 = MAGNET_HEIGHT`, not at the underside plane `0`. -/
theorem bore_top_offset_cex :
    ((add_corner_magnets defaultConfig 0 0 (1/20) (1/10)).map
        (fun p => p.1.cz + p.1.depth / 2)) = [1/500, 1/500, 1/500, 1/500] ∧
    ((1 : ℚ)/500 ≠ (1/20 : ℚ) - (1/10) / 2) := by
  constructor
  · norm_num [add_corner_magnets, effective_offset, defaultConfig]
  · norm_num

/-- C7, amended: each of the four bore cylinders has radius `MAGNET_RADIUS`
and depth `MAGNET_HEIGHT + extra` (with `extra = 1/100`), and its flat top
face lies at `tile_bottom_z + MAGNET_HEIGHT` — the pocket reaches
`MAGNET_HEIGHT` above the underside plane, and the cylinder over-extends
`extra` below it so the cut pierces the bottom face. -/
theorem bore_geometry (cfg : Config) (x y z h : ℚ) :
    (add_corner_magnets cfg x y z h).map
        (fun p => (p.1.radius, p.1.depth, p.1.cz + p.1.depth / 2)) =
      List.replicate 4
        (cfg.MAGNET_RADIUS, cfg.MAGNET_HEIGHT + 1/100,
          z - h / 2 + cfg.MAGNET_HEIGHT) := by
  simp only [add_corner_magnets, List.replicate, List.map_cons, List.map_nil,
    List.cons.injEq, Prod.mk.injEq, and_true]
  ring_nf
  tauto

/-- Witness for C9 at the source's own configuration and Scenario A's input. -/
theorem quantized_bottom_lower_bound_wit :
    defaultConfig.QUANTIZE_FILL = true ∧ 0 < defaultConfig.FILL_LAYER_THICKNESS ∧
    137/1000 - defaultConfig.MIN_MODEL_BASE_DEPTH - defaultConfig.FILL_LAYER_THICKNESS -
        defaultConfig.EPS <
      quantized_bottom defaultConfig (137/1000) :=
  ⟨rfl, by norm_num [defaultConfig],
    quantized_bottom_lower_bound defaultConfig (137/1000) rfl (by norm_num [defaultConfig])⟩

/-- The Height Profiler returns `none` exactly when no vertex lies inside the
footprint (inclusive bounds). -/
theorem minz_none_iff (cfg : Config) (verts : List Vert) (row col : ℤ) :
    min_z_in_tile cfg verts row col = none ↔
      ∀ v ∈ verts, ¬ in_tile_bounds cfg row col v := by
  unfold min_z_in_tile
  rw [List.min?_eq_none_iff]
  simp [List.map_eq_nil_iff, List.filter_eq_nil_iff]

/-- The Height Profiler returns `some m` exactly when `m` is the Z coordinate
of an in-footprint vertex and a lower bound on all in-footprint vertices. -/
theorem minz_some_iff (cfg : Config) (verts : List Vert) (row col : ℤ) (m : ℚ) :
    min_z_in_tile cfg verts row col = some m ↔
      (∃ v ∈ verts, in_tile_bounds cfg row col v ∧ v.z = m) ∧
      ∀ v ∈ verts, in_tile_bounds cfg row col v → m ≤ v.z := by
  unfold min_z_in_tile
  haveI : Std.Antisymm ((· : ℚ) ≤ ·) := ⟨fun h h' => le_antisymm h h'⟩
  rw [List.min?_eq_some_iff le_refl min_choice (fun _ _ _ => le_min_iff)]
  simp only [List.mem_map, List.mem_filter, decide_eq_true_eq]
  constructor
  · rintro ⟨⟨v, ⟨hv, hb⟩, hz⟩, hall⟩
    exact ⟨⟨v, hv, hb, hz⟩, fun w hw hbw => hall w.z ⟨w, ⟨hw, hbw⟩, rfl⟩⟩
  · rintro ⟨⟨v, hv, hb, hz⟩, hall⟩
    exact ⟨⟨v, ⟨hv, hb⟩, hz⟩, fun b ⟨w, ⟨hw, hbw⟩, hwz⟩ => hwz ▸ hall w hw hbw⟩

/-- The profiler's result depends only on the vertex set, not its order. -/
theorem minz_perm (cfg : Config) {verts verts' : List Vert} (row col : ℤ)
    (h : verts.Perm verts') :
    min_z_in_tile cfg verts row col = min_z_in_tile cfg verts' row col := by
  cases e : min_z_in_tile cfg verts row col with
  | none =>
    refine ((minz_none_iff cfg verts' row col).mpr ?_).symm
    intro v hv
    exact (minz_none_iff cfg verts row col).mp e v (h.mem_iff.mpr hv)
  | some m =>
    have hc := (minz_some_iff cfg verts row col m).mp e
    refine ((minz_some_iff cfg verts' row col m).mpr ?_).symm
    obtain ⟨⟨v, hv, hb, hz⟩, hall⟩ := hc
    exact ⟨⟨v, h.mem_iff.mp hv, hb, hz⟩,
      fun w hw hbw => hall w (h.mem_iff.mpr hw) hbw⟩

/-- C8: the Height Profiler returns the minimum Z over exactly the vertices
inside the inclusive footprint bounds, independently of vertex order; when
that set is empty it returns no value, `process_tile` then produces no tile,
and in grid mode the batch result is the concatenation over the remaining
indices — the empty tile is skipped with no output and no error. -/
theorem min_z_profile_and_skip (cfg : Config) (verts verts' : List Vert)
    (row col : ℤ) :
    (min_z_in_tile cfg verts row col = none ↔
      ∀ v ∈ verts, ¬ in_tile_bounds cfg row col v) ∧
    (∀ m : ℚ, min_z_in_tile cfg verts row col = some m →
      (∃ v ∈ verts, in_tile_bounds cfg row col v ∧ v.z = m) ∧
      ∀ v ∈ verts, in_tile_bounds cfg row col v → m ≤ v.z) ∧
    (verts.Perm verts' →
      min_z_in_tile cfg verts row col = min_z_in_tile cfg verts' row col) ∧
    (min_z_in_tile cfg verts row col = none →
      process_tile cfg verts row col = none) ∧
    (∀ l₁ l₂ : List (ℤ × ℤ), cfg.SINGLE_TILE_MODE = false →
      grid_indices cfg = l₁ ++ (row, col) :: l₂ →
      min_z_in_tile cfg verts row col = none →
      run_tiles cfg verts =
        l₁.filterMap (fun rc => process_tile cfg verts rc.1 rc.2) ++
          l₂.filterMap (fun rc => process_tile cfg verts rc.1 rc.2)) := by
  refine ⟨minz_none_iff cfg verts row col,
    fun m hm => (minz_some_iff cfg verts row col m).mp hm,
    minz_perm cfg row col,
    fun h => by simp [process_tile, h],
    fun l₁ l₂ hmode hgrid hnone => ?_⟩
  have hp : process_tile cfg verts row col = none := by simp [process_tile, hnone]
  simp [run_tiles, hmode, hgrid, List.filterMap_append, List.filterMap_cons, hp]

/-- A 1 × 2 grid configuration in full-grid mode. -/
def cfgC8 : Config :=
  { defaultConfig with SINGLE_TILE_MODE := false, TILES_X := 2, TILES_Y := 1 }

/-- One vertex inside tile (0, 1) and outside tile (0, 0). -/
def vertsC8 : List Vert := [⟨3/10, 1/10, 7/1000⟩]

/-- Two vertices, in their given order. -/
def vertsP : List Vert := [⟨0, 0, 0⟩, ⟨1, 1, 2⟩]

/-- The same two vertices, swapped. -/
def vertsP' : List Vert := [⟨1, 1, 2⟩, ⟨0, 0, 0⟩]

/-- Witness for C8: on a 1 × 2 grid whose only vertex lies in tile (0, 1),
tile (0, 0) is unpopulated, produces no tile, and the batch still covers the
remaining index; and the profiler is order-independent on a swapped pair. -/
theorem min_z_profile_and_skip_wit :
    vertsP.Perm vertsP' ∧
    min_z_in_tile cfgC8 vertsC8 0 0 = none ∧
    min_z_in_tile defaultConfig vertsP 0 0 =
      min_z_in_tile defaultConfig vertsP' 0 0 ∧
    process_tile cfgC8 vertsC8 0 0 = none ∧
    run_tiles cfgC8 vertsC8 =
      List.filterMap (fun rc => process_tile cfgC8 vertsC8 rc.1 rc.2)
        [((0 : ℤ), (1 : ℤ))] := by
  have hperm : vertsP.Perm vertsP' := List.Perm.swap _ _ _
  have hnone : min_z_in_tile cfgC8 vertsC8 0 0 = none := by
    norm_num [min_z_in_tile, in_tile_bounds, tile_aabb, cfgC8, defaultConfig,
      List.filter, List.min?]
  have h := min_z_profile_and_skip defaultConfig vertsP vertsP' 0 0
  have h2 := min_z_profile_and_skip cfgC8 vertsC8 vertsC8 0 0
  have hgrid : grid_indices cfgC8 = [] ++ ((0 : ℤ), (0 : ℤ)) :: [((0 : ℤ), (1 : ℤ))] := by
    rfl
  refine ⟨hperm, hnone, h.2.2.1 hperm, h2.2.2.2.1 hnone, ?_⟩
  have h5 := h2.2.2.2.2 [] [((0 : ℤ), (1 : ℤ))] rfl hgrid hnone
  simpa using h5

/-- C10: in single-tile mode the configured index is used unvalidated: the
footprint formula holds for every integer pair, the pipeline is exactly
`process_tile` at `(SINGLE_TILE_ROW, SINGLE_TILE_COL)` with no bound check
and no error path, and whenever that footprint is populated a tile solid is
produced just as for an in-grid index. -/
theorem single_tile_no_bounds_check (cfg : Config) (verts : List Vert)
    (hmode : cfg.SINGLE_TILE_MODE = true) :
    (∀ row col : ℤ, tile_aabb cfg row col =
      (col * cfg.TILE_SIZE, (col + 1) * cfg.TILE_SIZE,
       row * cfg.TILE_SIZE, (row + 1) * cfg.TILE_SIZE)) ∧
    run_tiles cfg verts =
      (match process_tile cfg verts cfg.SINGLE_TILE_ROW cfg.SINGLE_TILE_COL with
       | some t => [t]
       | none => []) ∧
    ((min_z_in_tile cfg verts cfg.SINGLE_TILE_ROW cfg.SINGLE_TILE_COL).isSome = true →
      ∃ t : Tile, run_tiles cfg verts = [t]) := by
  refine ⟨fun _ _ => rfl, by simp [run_tiles, hmode], fun hpop => ?_⟩
  have hps : (process_tile cfg verts cfg.SINGLE_TILE_ROW cfg.SINGLE_TILE_COL).isSome = true := by
    cases e : min_z_in_tile cfg verts cfg.SINGLE_TILE_ROW cfg.SINGLE_TILE_COL with
    | none => rw [e] at hpop; simp at hpop
    | some m => simp [process_tile, e]
  obtain ⟨t, ht⟩ := Option.isSome_iff_exists.mp hps
  exact ⟨t, by simp [run_tiles, hmode, ht]⟩

/-- A single-tile configuration selecting the out-of-grid index (-3, -7):
row -3 and col -7 lie far outside the 3 × 5 grid. -/
def cfgC10 : Config :=
  { defaultConfig with SINGLE_TILE_ROW := -3, SINGLE_TILE_COL := -7 }

/-- One vertex inside the footprint of the out-of-grid tile (-3, -7). -/
def vertsC10 : List Vert := [⟨-13/10, -1/2, 1/20⟩]

/-- Witness for C10: with the out-of-grid index (-3, -7) and a vertex in its
footprint, the pipeline raises nothing and exports exactly one tile solid. -/
theorem single_tile_no_bounds_check_wit :
    cfgC10.SINGLE_TILE_MODE = true ∧
    (min_z_in_tile cfgC10 vertsC10 cfgC10.SINGLE_TILE_ROW
        cfgC10.SINGLE_TILE_COL).isSome = true ∧
    ∃ t : Tile, run_tiles cfgC10 vertsC10 = [t] := by
  have hmode : cfgC10.SINGLE_TILE_MODE = true := rfl
  have hpop : (min_z_in_tile cfgC10 vertsC10 cfgC10.SINGLE_TILE_ROW
      cfgC10.SINGLE_TILE_COL).isSome = true := by
    norm_num [min_z_in_tile, in_tile_bounds, tile_aabb, cfgC10, defaultConfig,
      List.filter, List.min?]
  exact ⟨hmode, hpop, (single_tile_no_bounds_check cfgC10 vertsC10 hmode).2.2 hpop⟩

end TileCityMesh
